import Mathlib

/-!
Verification development for the `fast-keyboard-sounds` program
(`src/main.rs`, `src/config.rs`).

The program listens globally for keyboard and mouse events and plays a
randomly chosen pre-loaded `.wav` sample on each key-down, key-up,
mouse-down and mouse-up transition, debouncing repeated key-press events
through a `HashMap<Key, bool>`.

Embedding conventions:
- `rdev::Key` and `rdev::Button` are opaque identifiers, modelled as `Nat`.
- The `HashMap<Key, bool>` (field `key_states` of `ListenState`) is
  modelled as an association list `List (Nat × Bool)` with a first-match
  lookup (`lookupKey`), in-place update of an existing entry (`updateKey`,
  the `get_mut` write) and append for `insert` (the source only calls
  `insert` when the key is absent).
- Audio buffers are opaque, modelled as `Nat`; the four sample pools
  (`key_down_sounds`, `key_up_sounds`, `mouse_down_sounds`,
  `mouse_up_sounds`) are the four lists of the `Pools` structure.
- `rand`'s `SliceRandom::choose` with `thread_rng` returns `None` exactly
  on the empty slice and otherwise some element; the random source is made
  explicit as a `Nat` seed and `choose` draws index `seed % length`.
  The per-event seed and the success of each `play_raw` call are supplied
  by oracle functions `rngAt`/`playOkAt` indexed by event position.
- Every `.unwrap()`/`.expect(..)` panic on the dispatch path is an
  `Except.error` value of `SoundPanic`; `play_raw(..).unwrap()` is the
  `playOk` test, choosing from an empty pool the `chooseFailed` case.
- `f64` mouse-move/wheel coordinates carry no semantics (the `_ => {}`
  arm ignores them), so they are modelled as `Int`.
-/

/-- `rdev::EventType`: the closed event-kind variant matched by the listen
callback. `mouseMove` and `wheel` fall into the `_ => {}` arm of the
source. -/
inductive EventType where
  | keyPress (key : Nat)
  | keyRelease (key : Nat)
  | buttonPress (button : Nat)
  | buttonRelease (button : Nat)
  | mouseMove (x y : Int)
  | wheel (dx dy : Int)
deriving DecidableEq, Repr

/-- First-match lookup in the association-list model of
`ListenState.key_states` (`HashMap::get` / the read of `get_mut`). -/
def lookupKey : List (Nat × Bool) → Nat → Option Bool
  | [], _ => none
  | (k, v) :: rest, key => if k = key then some v else lookupKey rest key

/-- In-place mutation of an existing entry (the write through
`HashMap::get_mut`); leaves the map unchanged when the key is absent. -/
def updateKey : List (Nat × Bool) → Nat → Bool → List (Nat × Bool)
  | [], _, _ => []
  | (k, v) :: rest, key, val =>
    if k = key then (k, val) :: rest else (k, v) :: updateKey rest key val

/-- The four immutable sample pools loaded at startup. -/
structure Pools where
  keyDown : List Nat
  keyUp : List Nat
  mouseDown : List Nat
  mouseUp : List Nat
deriving DecidableEq, Repr

/-- `SliceRandom::choose`: `None` iff the slice is empty, otherwise an
element of the slice; the random draw is the explicit seed `rng`. -/
def choose (l : List Nat) (rng : Nat) : Option Nat :=
  l[rng % l.length]?

/-- The two `.unwrap()` panics on the dispatch path:
`choose(..).unwrap()` on an empty pool and `play_raw(..).unwrap()` on a
rejected play request. -/
inductive SoundPanic where
  | chooseFailed
  | playFailed
deriving DecidableEq, Repr

/-- One invocation of the listen callback (`main.rs` lines 230-284):
given the pools, this event's random seed, whether the output sink
accepts the play request, the current `key_states` map and the event,
produce either a panic or the new map together with the list of buffers
played for this event (length 0 or 1). -/
def dispatchEvent (pools : Pools) (rng : Nat) (playOk : Bool)
    (key_states : List (Nat × Bool)) (ev : EventType) :
    Except SoundPanic (List (Nat × Bool) × List Nat) :=
  match ev with
  | EventType.keyPress key =>
    match lookupKey key_states key with
    | some keyIsPressed =>
      if !keyIsPressed then
        match choose pools.keyDown rng with
        | none => Except.error SoundPanic.chooseFailed
        | some sound =>
          if playOk then Except.ok (updateKey key_states key true, [sound])
          else Except.error SoundPanic.playFailed
      else Except.ok (key_states, [])
    | none =>
      match choose pools.keyDown rng with
      | none => Except.error SoundPanic.chooseFailed
      | some sound =>
        if playOk then Except.ok (key_states ++ [(key, true)], [sound])
        else Except.error SoundPanic.playFailed
  | EventType.keyRelease key =>
    match lookupKey key_states key with
    | some keyIsPressed =>
      if keyIsPressed then
        match choose pools.keyUp rng with
        | none => Except.error SoundPanic.chooseFailed
        | some sound =>
          if playOk then Except.ok (updateKey key_states key false, [sound])
          else Except.error SoundPanic.playFailed
      else Except.ok (key_states, [])
    | none =>
      match choose pools.keyUp rng with
      | none => Except.error SoundPanic.chooseFailed
      | some sound =>
        if playOk then Except.ok (key_states ++ [(key, false)], [sound])
        else Except.error SoundPanic.playFailed
  | EventType.buttonPress _ =>
    match choose pools.mouseDown rng with
    | none => Except.error SoundPanic.chooseFailed
    | some sound =>
      if playOk then Except.ok (key_states, [sound])
      else Except.error SoundPanic.playFailed
  | EventType.buttonRelease _ =>
    match choose pools.mouseUp rng with
    | none => Except.error SoundPanic.chooseFailed
    | some sound =>
      if playOk then Except.ok (key_states, [sound])
      else Except.error SoundPanic.playFailed
  | EventType.mouseMove _ _ => Except.ok (key_states, [])
  | EventType.wheel _ _ => Except.ok (key_states, [])

/-- Sequential dispatch of a list of events by the listen callback, in
delivery order, threading `key_states` and collecting every played
buffer; `i` is the position of the first event (it indexes the oracles).
An unhandled panic inside the callback aborts the whole run. -/
def runEvents (pools : Pools) (rngAt : Nat → Nat) (playOkAt : Nat → Bool) :
    List (Nat × Bool) → List EventType → Nat →
    Except SoundPanic (List (Nat × Bool) × List Nat)
  | st, [], _ => Except.ok (st, [])
  | st, ev :: evs, i =>
    match dispatchEvent pools (rngAt i) (playOkAt i) st ev with
    | Except.error e => Except.error e
    | Except.ok (st', plays) =>
      match runEvents pools rngAt playOkAt st' evs (i + 1) with
      | Except.error e => Except.error e
      | Except.ok (stFin, rest) => Except.ok (stFin, plays ++ rest)

/-- The four fatal empty-pool conditions reported before `listen` starts
(`main.rs` lines 203-221). -/
inductive StartupError where
  | noKeyDown
  | noKeyUp
  | noMouseDown
  | noMouseUp
deriving DecidableEq, Repr

/-- The four `is_empty` checks of `main`, in source order: the first empty
pool aborts startup with its category. -/
def startupCheck (p : Pools) : Option StartupError :=
  if p.keyDown.isEmpty then some StartupError.noKeyDown
  else if p.keyUp.isEmpty then some StartupError.noKeyUp
  else if p.mouseDown.isEmpty then some StartupError.noMouseDown
  else if p.mouseUp.isEmpty then some StartupError.noMouseUp
  else none

/-- The pool named by a startup error. -/
def errorPool (p : Pools) : StartupError → List Nat
  | StartupError.noKeyDown => p.keyDown
  | StartupError.noKeyUp => p.keyUp
  | StartupError.noMouseDown => p.mouseDown
  | StartupError.noMouseUp => p.mouseUp

/-- Startup composition of `main`: run the empty-pool checks; only when
all four pools are non-empty does the event loop start on the empty
`key_states` map. An outer `Except.error` means the process returned
before `listen` was called, so no event was ever processed. -/
def mainRun (pools : Pools) (rngAt : Nat → Nat) (playOkAt : Nat → Bool)
    (evs : List EventType) :
    Except StartupError (Except SoundPanic (List (Nat × Bool) × List Nat)) :=
  match startupCheck pools with
  | some e => Except.error e
  | none => Except.ok (runEvents pools rngAt playOkAt [] evs 0)

/-! ### Sample loading (`get_buffered_sounds_from_directory`, `main.rs` 33-56)

The filesystem view of the target directory is a list of entries as the
`glob` iterator would produce them: a file with its name and whether
`File::open` and `Decoder::new` succeed on it, or a glob iteration error.
The glob pattern `directory + "/*.wav"` keeps exactly the files whose
name ends in `.wav` (non-recursive: the listing holds only the entries
directly inside the directory). Buffers are identified by file name. -/

/-- Rust `str::ends_with`, on the character content of the strings. -/
def strEndsWith (s suf : String) : Bool := List.isSuffixOf suf.data s.data

/-- Rust `str::to_lowercase`; the strings the source compares against are
ASCII, where per-character lowercasing is exact. -/
def lowerStr (s : String) : String := String.mk (s.data.map Char.toLower)

/-- One entry seen while iterating the directory. -/
inductive FsEntry where
  | file (name : String) (opens : Bool) (decodes : Bool)
  | globError (msg : String)
deriving DecidableEq, Repr

/-- Whether the `"*.wav"` glob pattern yields this entry: files are kept
iff their name ends in `.wav`; iteration errors are yielded as `Err`
entries regardless of the pattern. -/
def matchesWavGlob : FsEntry → Bool
  | FsEntry.file name _ _ => strEndsWith name ".wav"
  | FsEntry.globError _ => true

/-- The two `.unwrap()` panics inside the loader loop:
`File::open(path).unwrap()` and `Decoder::new(file).unwrap()`. -/
inductive LoadPanic where
  | openFailed
  | decodeFailed
deriving DecidableEq, Repr

/-- The loader loop body: `Ok(path)` entries are opened and decoded with
`.unwrap()` (a failure panics, aborting the whole loader), `Err(error)`
entries are printed and skipped. -/
def loadEntries : List FsEntry → Except LoadPanic (List String)
  | [] => Except.ok []
  | FsEntry.globError _ :: rest => loadEntries rest
  | FsEntry.file name opens decodes :: rest =>
    if !opens then Except.error LoadPanic.openFailed
    else if !decodes then Except.error LoadPanic.decodeFailed
    else
      match loadEntries rest with
      | Except.error e => Except.error e
      | Except.ok sounds => Except.ok (name :: sounds)

/-- `get_buffered_sounds_from_directory`: glob `directory/*.wav` over the
listing, then decode every match. -/
def get_buffered_sounds_from_directory (listing : List FsEntry) :
    Except LoadPanic (List String) :=
  loadEntries (listing.filter matchesWavGlob)

/-- The names of the `.wav` files of a listing, in iteration order. -/
def wavNames : List FsEntry → List String
  | [] => []
  | FsEntry.file name _ _ :: rest =>
    if strEndsWith name ".wav" then name :: wavNames rest else wavNames rest
  | FsEntry.globError _ :: rest => wavNames rest

/-- A listing entry is loadable when it is not a `.wav` file or both
opens and decodes. -/
def wavLoadable : FsEntry → Bool
  | FsEntry.file name opens decodes =>
    !strEndsWith name ".wav" || (opens && decodes)
  | FsEntry.globError _ => true

/-! ### Device configuration (`main.rs` 118-195, `config.rs`)

`use_default = false` resolves the explicit device parameters; every
`.expect(..)`/`panic!(..)` is an `Except.error` carrying the source's
message. The actual audio host only enters through its list of output
device names (`output_devices()`), which is abstracted as a
`List String`; `find` evaluates its closure — and hence the
`device_name.expect(..)` — once per enumerated device, so a missing
device name panics with "Device name not specified" when at least one
device exists and with "Couldn't find device" when none does. -/

/-- `cpal::HostId` restricted to the two hosts the source recognizes. -/
inductive HostId where
  | Asio
  | Wasapi
deriving DecidableEq, Repr

/-- `cpal::SampleFormat`, the ten formats the source recognizes. -/
inductive SampleFormat where
  | I8
  | I16
  | I32
  | I64
  | U8
  | U16
  | U32
  | U64
  | F32
  | F64
deriving DecidableEq, Repr

/-- `config.device_config` (`config.rs`): every explicit-device field is
optional in the JSON file. -/
structure DeviceConfig where
  host : Option String
  device_name : Option String
  num_channels : Option Nat
  sample_rate : Option Nat
  buffer_size : Option Nat
  format : Option String
deriving DecidableEq, Repr

/-- The fully resolved explicit device parameters fed to
`SupportedStreamConfig::new` and the device search. -/
structure ResolvedDevice where
  host : HostId
  device_name : String
  num_channels : Nat
  sample_rate : Nat
  buffer_size : Nat
  format : SampleFormat
deriving DecidableEq, Repr

/-- The host-string match of `main`: lowercase, then `"asio"`, `"wasapi"`
or `panic!("Invalid host")`. -/
def parseHost (s : String) : Except String HostId :=
  let l := lowerStr s
  if l = "asio" then Except.ok HostId.Asio
  else if l = "wasapi" then Except.ok HostId.Wasapi
  else Except.error "Invalid host"

/-- The format-string match of `main`: lowercase, then one of the ten
format names or `panic!("Invalid sample format")`. -/
def parseFormat (s : String) : Except String SampleFormat :=
  let l := lowerStr s
  if l = "i8" then Except.ok SampleFormat.I8
  else if l = "i16" then Except.ok SampleFormat.I16
  else if l = "i32" then Except.ok SampleFormat.I32
  else if l = "i64" then Except.ok SampleFormat.I64
  else if l = "u8" then Except.ok SampleFormat.U8
  else if l = "u16" then Except.ok SampleFormat.U16
  else if l = "u32" then Except.ok SampleFormat.U32
  else if l = "u64" then Except.ok SampleFormat.U64
  else if l = "f32" then Except.ok SampleFormat.F32
  else if l = "f64" then Except.ok SampleFormat.F64
  else Except.error "Invalid sample format"

/-- `output_devices().find(|device| device.name() == device_name.expect(..))
.expect("Couldn't find device")`: the closure runs once per enumerated
device, so the `expect` on the missing name fires only when some device
exists. -/
def findDevice (devices : List String) (cfgName : Option String) :
    Except String String :=
  match devices with
  | [] => Except.error "Couldn't find device"
  | d :: rest =>
    match cfgName with
    | none => Except.error "Device name not specified"
    | some n => if d = n then Except.ok d else findDevice rest (some n)

/-- The `use_default = false` branch of `main` (lines 120-194): unwrap
and validate each explicit device field in source order; the first
failure is fatal. ("Sample format not specifed" reproduces the source's
message.) -/
def resolveDeviceConfig (devices : List String) (dc : DeviceConfig) :
    Except String ResolvedDevice :=
  match dc.host with
  | none => Except.error "Host not specified"
  | some hs =>
    match parseHost hs with
    | Except.error e => Except.error e
    | Except.ok host =>
      match findDevice devices dc.device_name with
      | Except.error e => Except.error e
      | Except.ok name =>
        match dc.buffer_size with
        | none => Except.error "Buffer size not specified"
        | some bs =>
          match dc.num_channels with
          | none => Except.error "Number of channels not specified"
          | some ch =>
            match dc.sample_rate with
            | none => Except.error "Sample rate not specified"
            | some sr =>
              match dc.format with
              | none => Except.error "Sample format not specifed"
              | some fs =>
                match parseFormat fs with
                | Except.error e => Except.error e
                | Except.ok fmt =>
                  Except.ok ⟨host, name, ch, sr, bs, fmt⟩

/-! ### Helper lemmas about the association-list state and the draw -/

theorem lookupKey_updateKey_self (st : List (Nat × Bool)) (k : Nat) (v : Bool)
    (h : lookupKey st k ≠ none) : lookupKey (updateKey st k v) k = some v := by
  induction st with
  | nil => simp [lookupKey] at h
  | cons hd rest ih =>
    obtain ⟨k1, v1⟩ := hd
    by_cases hk : k1 = k
    · simp [lookupKey, updateKey, hk]
    · simp only [lookupKey, updateKey, if_neg hk] at h ⊢
      exact ih h

theorem lookupKey_updateKey_ne (st : List (Nat × Bool)) (k k' : Nat) (v : Bool)
    (h : k' ≠ k) : lookupKey (updateKey st k v) k' = lookupKey st k' := by
  have hne : ¬k = k' := fun hh => h hh.symm
  induction st with
  | nil => simp [updateKey]
  | cons hd rest ih =>
    obtain ⟨k1, v1⟩ := hd
    by_cases hk : k1 = k
    · subst hk
      simp [lookupKey, updateKey, hne]
    · simp only [lookupKey, updateKey, if_neg hk]
      by_cases hk' : k1 = k'
      · simp [lookupKey, hk']
      · simp only [lookupKey, if_neg hk']
        exact ih

theorem lookupKey_append_of_some (st l : List (Nat × Bool)) (k : Nat)
    (w : Bool) (h : lookupKey st k = some w) :
    lookupKey (st ++ l) k = some w := by
  induction st with
  | nil => simp [lookupKey] at h
  | cons hd rest ih =>
    obtain ⟨k1, v1⟩ := hd
    by_cases hk : k1 = k
    · simp only [lookupKey, if_pos hk] at h
      simp [lookupKey, hk, h]
    · simp only [lookupKey, if_neg hk] at h ⊢
      exact ih h

theorem lookupKey_append_self (st : List (Nat × Bool)) (k : Nat) (v : Bool)
    (h : lookupKey st k = none) :
    lookupKey (st ++ [(k, v)]) k = some v := by
  induction st with
  | nil => simp [lookupKey]
  | cons hd rest ih =>
    obtain ⟨k1, v1⟩ := hd
    by_cases hk : k1 = k
    · simp [lookupKey, if_pos hk] at h
    · simp only [lookupKey, List.cons_append, if_neg hk] at h ⊢
      exact ih h

theorem lookupKey_append_ne (st : List (Nat × Bool)) (k k' : Nat) (v : Bool)
    (h : k' ≠ k) : lookupKey (st ++ [(k, v)]) k' = lookupKey st k' := by
  have hne : ¬k = k' := fun hh => h hh.symm
  induction st with
  | nil => simp [lookupKey, hne]
  | cons hd rest ih =>
    obtain ⟨k1, v1⟩ := hd
    by_cases hk : k1 = k'
    · simp [lookupKey, hk]
    · simp only [lookupKey, List.cons_append, if_neg hk]
      exact ih

theorem choose_of_ne_nil (l : List Nat) (rng : Nat) (h : l ≠ []) :
    ∃ p, choose l rng = some p := by
  have hlen : 0 < l.length := List.length_pos.mpr h
  have hlt : rng % l.length < l.length := Nat.mod_lt _ hlen
  exact ⟨l[rng % l.length], by simp [choose, List.getElem?_eq_getElem hlt]⟩

/-! ### Claim theorems -/

/-- C3: a release event for a key with no entry in `key_states` plays
exactly one key-up buffer and inserts the entry with value `false`
(state `Released`). -/
theorem releaseUnknownKey_playsKeyUp (pools : Pools) (rng : Nat)
    (st : List (Nat × Bool)) (k : Nat)
    (hpool : pools.keyUp ≠ [])
    (hnone : lookupKey st k = none) :
    ∃ p, dispatchEvent pools rng true st (EventType.keyRelease k) =
        Except.ok (st ++ [(k, false)], [p]) ∧
      lookupKey (st ++ [(k, false)]) k = some false := by
  obtain ⟨p, hp⟩ := choose_of_ne_nil pools.keyUp rng hpool
  exact ⟨p, by simp [dispatchEvent, hnone, hp],
    lookupKey_append_self st k false hnone⟩

/-- C4: a mouse-button press plays exactly one mouse-down buffer and a
mouse-button release exactly one mouse-up buffer, for every state of the
`key_states` mapping, which is returned unchanged — button dispatch
neither consults nor mutates it. -/
theorem buttonEvents_alwaysPlay (pools : Pools) (rng : Nat)
    (st : List (Nat × Bool)) (b : Nat)
    (hdown : pools.mouseDown ≠ []) (hup : pools.mouseUp ≠ []) :
    (∃ p, dispatchEvent pools rng true st (EventType.buttonPress b) =
        Except.ok (st, [p])) ∧
    (∃ q, dispatchEvent pools rng true st (EventType.buttonRelease b) =
        Except.ok (st, [q])) := by
  obtain ⟨p, hp⟩ := choose_of_ne_nil pools.mouseDown rng hdown
  obtain ⟨q, hq⟩ := choose_of_ne_nil pools.mouseUp rng hup
  exact ⟨⟨p, by simp [dispatchEvent, hp]⟩, ⟨q, by simp [dispatchEvent, hq]⟩⟩

/-- C9: when all four pools are non-empty — the situation the startup
checks establish — the `choose(..).unwrap()` failure branch is
unreachable: dispatch never panics on the random draw, for any event,
state, seed and sink behaviour. -/
theorem chooseNeverFails (pools : Pools)
    (h1 : pools.keyDown ≠ []) (h2 : pools.keyUp ≠ [])
    (h3 : pools.mouseDown ≠ []) (h4 : pools.mouseUp ≠ [])
    (rng : Nat) (playOk : Bool) (st : List (Nat × Bool)) (ev : EventType) :
    dispatchEvent pools rng playOk st ev ≠
      Except.error SoundPanic.chooseFailed := by
  obtain ⟨p1, hp1⟩ := choose_of_ne_nil pools.keyDown rng h1
  obtain ⟨p2, hp2⟩ := choose_of_ne_nil pools.keyUp rng h2
  obtain ⟨p3, hp3⟩ := choose_of_ne_nil pools.mouseDown rng h3
  obtain ⟨p4, hp4⟩ := choose_of_ne_nil pools.mouseUp rng h4
  cases ev with
  | keyPress key =>
    cases hl : lookupKey st key with
    | some b => cases b <;> cases playOk <;> simp [dispatchEvent, hl, hp1]
    | none => cases playOk <;> simp [dispatchEvent, hl, hp1]
  | keyRelease key =>
    cases hl : lookupKey st key with
    | some b => cases b <;> cases playOk <;> simp [dispatchEvent, hl, hp2]
    | none => cases playOk <;> simp [dispatchEvent, hl, hp2]
  | buttonPress bt => cases playOk <;> simp [dispatchEvent, hp3]
  | buttonRelease bt => cases playOk <;> simp [dispatchEvent, hp4]
  | mouseMove x y => simp [dispatchEvent]
  | wheel dx dy => simp [dispatchEvent]

/-- While a key is recorded as pressed, further press events for it are
complete no-ops: any number of them leaves the state untouched and plays
nothing, for every seed and sink behaviour. -/
theorem runEvents_pressHeld_noop (pools : Pools) (rngAt : Nat → Nat)
    (playOkAt : Nat → Bool) (k : Nat) (st : List (Nat × Bool))
    (h : lookupKey st k = some true) (m : Nat) :
    ∀ i, runEvents pools rngAt playOkAt st
      (List.replicate m (EventType.keyPress k)) i = Except.ok (st, []) := by
  induction m with
  | zero => intro i; simp [runEvents]
  | succ m ih =>
    intro i
    have hd : dispatchEvent pools (rngAt i) (playOkAt i) st
        (EventType.keyPress k) = Except.ok (st, []) := by
      simp [dispatchEvent, h]
    simp [List.replicate_succ, runEvents, hd, ih (i + 1)]

/-- C1: starting from any state in which key `k` is not recorded as
pressed, `n ≥ 1` consecutive press events for `k` (no interleaved
release) play exactly one key-down buffer — the one chosen at the first
press — and end in exactly the state the first press produced, with `k`
recorded as pressed: presses 2..n neither play nor change any state. -/
theorem repeatedPress_playsOnce (pools : Pools) (rngAt : Nat → Nat)
    (playOkAt : Nat → Bool) (st : List (Nat × Bool)) (k n : Nat)
    (hn : 1 ≤ n) (hpool : pools.keyDown ≠ [])
    (hplay : ∀ i, playOkAt i = true)
    (hnp : lookupKey st k ≠ some true) :
    ∃ p st1,
      dispatchEvent pools (rngAt 0) (playOkAt 0) st (EventType.keyPress k) =
        Except.ok (st1, [p]) ∧
      lookupKey st1 k = some true ∧
      runEvents pools rngAt playOkAt st
        (List.replicate n (EventType.keyPress k)) 0 =
        Except.ok (st1, [p]) := by
  obtain ⟨p, hp⟩ := choose_of_ne_nil pools.keyDown (rngAt 0) hpool
  obtain ⟨m, rfl⟩ : ∃ m, n = m + 1 := ⟨n - 1, (Nat.succ_pred_eq_of_pos hn).symm⟩
  have hplay0 := hplay 0
  cases hl : lookupKey st k with
  | none =>
    have h1 : lookupKey (st ++ [(k, true)]) k = some true :=
      lookupKey_append_self st k true hl
    refine ⟨p, st ++ [(k, true)], ?_, h1, ?_⟩
    · simp [dispatchEvent, hl, hp, hplay0]
    · have hrest := runEvents_pressHeld_noop pools rngAt playOkAt k _ h1 m 1
      simp [List.replicate_succ, runEvents, dispatchEvent, hl, hp, hplay0, hrest]
  | some b =>
    cases b with
    | true => exact absurd hl hnp
    | false =>
      have h1 : lookupKey (updateKey st k true) k = some true :=
        lookupKey_updateKey_self st k true (by simp [hl])
      refine ⟨p, updateKey st k true, ?_, h1, ?_⟩
      · simp [dispatchEvent, hl, hp, hplay0]
      · have hrest := runEvents_pressHeld_noop pools rngAt playOkAt k _ h1 m 1
        simp [List.replicate_succ, runEvents, dispatchEvent, hl, hp, hplay0,
          hrest]

/-- C5: one callback invocation has at most one playback request and at
most one state mutation (none, one in-place update, or one insertion);
the event kinds outside the four tracked categories — mouse motion and
wheel — leave the state unchanged and play nothing. -/
theorem dispatch_atMostOneEffect (pools : Pools) (rng : Nat) (playOk : Bool)
    (st : List (Nat × Bool)) (ev : EventType)
    (st' : List (Nat × Bool)) (plays : List Nat)
    (h : dispatchEvent pools rng playOk st ev = Except.ok (st', plays)) :
    plays.length ≤ 1 ∧
    (st' = st ∨ (∃ k v, st' = updateKey st k v) ∨
      (∃ k v, st' = st ++ [(k, v)])) ∧
    (∀ x y, ev = EventType.mouseMove x y → st' = st ∧ plays = []) ∧
    (∀ dx dy, ev = EventType.wheel dx dy → st' = st ∧ plays = []) := by
  cases ev with
  | keyPress key =>
    cases hl : lookupKey st key with
    | some b =>
      cases b with
      | false =>
        cases hc : choose pools.keyDown rng with
        | none => simp [dispatchEvent, hl, hc] at h
        | some sound =>
          cases playOk with
          | false => simp [dispatchEvent, hl, hc] at h
          | true =>
            simp only [dispatchEvent, hl, hc, if_true, Bool.not_false,
              ite_true, Except.ok.injEq, Prod.mk.injEq] at h
            obtain ⟨rfl, rfl⟩ := h.symm
            exact ⟨by simp, Or.inr (Or.inl ⟨key, true, rfl⟩),
              fun x y hxy => EventType.noConfusion hxy,
              fun dx dy hxy => EventType.noConfusion hxy⟩
      | true =>
        simp only [dispatchEvent, hl, Bool.not_true, if_false,
          Except.ok.injEq, Prod.mk.injEq] at h
        obtain ⟨rfl, rfl⟩ := h.symm
        exact ⟨by simp, Or.inl rfl,
          fun x y hxy => EventType.noConfusion hxy,
          fun dx dy hxy => EventType.noConfusion hxy⟩
    | none =>
      cases hc : choose pools.keyDown rng with
      | none => simp [dispatchEvent, hl, hc] at h
      | some sound =>
        cases playOk with
        | false => simp [dispatchEvent, hl, hc] at h
        | true =>
          simp only [dispatchEvent, hl, hc, ite_true, Except.ok.injEq,
            Prod.mk.injEq] at h
          obtain ⟨rfl, rfl⟩ := h.symm
          exact ⟨by simp, Or.inr (Or.inr ⟨key, true, rfl⟩),
            fun x y hxy => EventType.noConfusion hxy,
            fun dx dy hxy => EventType.noConfusion hxy⟩
  | keyRelease key =>
    cases hl : lookupKey st key with
    | some b =>
      cases b with
      | true =>
        cases hc : choose pools.keyUp rng with
        | none => simp [dispatchEvent, hl, hc] at h
        | some sound =>
          cases playOk with
          | false => simp [dispatchEvent, hl, hc] at h
          | true =>
            simp only [dispatchEvent, hl, hc, ite_true, Except.ok.injEq,
              Prod.mk.injEq] at h
            obtain ⟨rfl, rfl⟩ := h.symm
            exact ⟨by simp, Or.inr (Or.inl ⟨key, false, rfl⟩),
              fun x y hxy => EventType.noConfusion hxy,
              fun dx dy hxy => EventType.noConfusion hxy⟩
      | false =>
        simp only [dispatchEvent, hl, if_false, Except.ok.injEq,
          Prod.mk.injEq] at h
        obtain ⟨rfl, rfl⟩ := h.symm
        exact ⟨by simp, Or.inl rfl,
          fun x y hxy => EventType.noConfusion hxy,
          fun dx dy hxy => EventType.noConfusion hxy⟩
    | none =>
      cases hc : choose pools.keyUp rng with
      | none => simp [dispatchEvent, hl, hc] at h
      | some sound =>
        cases playOk with
        | false => simp [dispatchEvent, hl, hc] at h
        | true =>
          simp only [dispatchEvent, hl, hc, ite_true, Except.ok.injEq,
            Prod.mk.injEq] at h
          obtain ⟨rfl, rfl⟩ := h.symm
          exact ⟨by simp, Or.inr (Or.inr ⟨key, false, rfl⟩),
            fun x y hxy => EventType.noConfusion hxy,
            fun dx dy hxy => EventType.noConfusion hxy⟩
  | buttonPress bt =>
    cases hc : choose pools.mouseDown rng with
    | none => simp [dispatchEvent, hc] at h
    | some sound =>
      cases playOk with
      | false => simp [dispatchEvent, hc] at h
      | true =>
        simp only [dispatchEvent, hc, ite_true, Except.ok.injEq,
          Prod.mk.injEq] at h
        obtain ⟨rfl, rfl⟩ := h.symm
        exact ⟨by simp, Or.inl rfl,
          fun x y hxy => EventType.noConfusion hxy,
          fun dx dy hxy => EventType.noConfusion hxy⟩
  | buttonRelease bt =>
    cases hc : choose pools.mouseUp rng with
    | none => simp [dispatchEvent, hc] at h
    | some sound =>
      cases playOk with
      | false => simp [dispatchEvent, hc] at h
      | true =>
        simp only [dispatchEvent, hc, ite_true, Except.ok.injEq,
          Prod.mk.injEq] at h
        obtain ⟨rfl, rfl⟩ := h.symm
        exact ⟨by simp, Or.inl rfl,
          fun x y hxy => EventType.noConfusion hxy,
          fun dx dy hxy => EventType.noConfusion hxy⟩
  | mouseMove x y =>
    simp only [dispatchEvent, Except.ok.injEq, Prod.mk.injEq] at h
    obtain ⟨rfl, rfl⟩ := h.symm
    exact ⟨by simp, Or.inl rfl, fun x' y' hxy => ⟨rfl, rfl⟩,
      fun dx dy hxy => EventType.noConfusion hxy⟩
  | wheel dx dy =>
    simp only [dispatchEvent, Except.ok.injEq, Prod.mk.injEq] at h
    obtain ⟨rfl, rfl⟩ := h.symm
    exact ⟨by simp, Or.inl rfl, fun x y hxy => EventType.noConfusion hxy,
      fun dx' dy' hxy => ⟨rfl, rfl⟩⟩

/-- After an in-place update of key `k`, every key that was present is
still present. -/
theorem lookupKey_updateKey_isSome (st : List (Nat × Bool)) (k k' : Nat)
    (v : Bool) (h : (lookupKey st k').isSome = true) :
    (lookupKey (updateKey st k v) k').isSome = true := by
  by_cases hk : k' = k
  · subst hk
    rw [lookupKey_updateKey_self st k' v]
    · rfl
    · intro hnone
      rw [hnone] at h
      exact Bool.noConfusion h
  · rw [lookupKey_updateKey_ne st k k' v hk]
    exact h

/-- C10: one callback invocation touches at most the entry of the
event's own key: a key event for `k` leaves every entry `k' ≠ k` as it
was, button / mouse-move / wheel events return the mapping unchanged,
and an entry that was present before the event is present after it (no
entry is ever removed). -/
theorem dispatch_framePreservation (pools : Pools) (rng : Nat)
    (playOk : Bool) (st : List (Nat × Bool)) (ev : EventType)
    (st' : List (Nat × Bool)) (plays : List Nat)
    (h : dispatchEvent pools rng playOk st ev = Except.ok (st', plays)) :
    (∀ k k', (ev = EventType.keyPress k ∨ ev = EventType.keyRelease k) →
      k' ≠ k → lookupKey st' k' = lookupKey st k') ∧
    (∀ b, ev = EventType.buttonPress b → st' = st) ∧
    (∀ b, ev = EventType.buttonRelease b → st' = st) ∧
    (∀ x y, ev = EventType.mouseMove x y → st' = st) ∧
    (∀ dx dy, ev = EventType.wheel dx dy → st' = st) ∧
    (∀ k', (lookupKey st k').isSome = true →
      (lookupKey st' k').isSome = true) := by
  have hstate : st' = st ∨
      (∃ k v, (ev = EventType.keyPress k ∨ ev = EventType.keyRelease k) ∧
        (st' = updateKey st k v ∨
          (lookupKey st k = none ∧ st' = st ++ [(k, v)]))) ∧
      ((∀ b, ev = EventType.buttonPress b → False) ∧
       (∀ b, ev = EventType.buttonRelease b → False) ∧
       (∀ x y, ev = EventType.mouseMove x y → False) ∧
       (∀ dx dy, ev = EventType.wheel dx dy → False)) := by
    cases ev with
    | keyPress key =>
      cases hl : lookupKey st key with
      | some b =>
        cases b with
        | false =>
          cases hc : choose pools.keyDown rng with
          | none => simp [dispatchEvent, hl, hc] at h
          | some sound =>
            cases playOk with
            | false => simp [dispatchEvent, hl, hc] at h
            | true =>
              simp only [dispatchEvent, hl, hc, ite_true, Except.ok.injEq,
                Prod.mk.injEq] at h
              obtain ⟨rfl, rfl⟩ := h.symm
              exact Or.inr ⟨⟨key, true, Or.inl rfl, Or.inl rfl⟩,
                fun b hb => EventType.noConfusion hb,
                fun b hb => EventType.noConfusion hb,
                fun x y hb => EventType.noConfusion hb,
                fun dx dy hb => EventType.noConfusion hb⟩
        | true =>
          simp [dispatchEvent, hl] at h
          exact Or.inl h.1.symm
      | none =>
        cases hc : choose pools.keyDown rng with
        | none => simp [dispatchEvent, hl, hc] at h
        | some sound =>
          cases playOk with
          | false => simp [dispatchEvent, hl, hc] at h
          | true =>
            simp only [dispatchEvent, hl, hc, ite_true, Except.ok.injEq,
              Prod.mk.injEq] at h
            obtain ⟨rfl, rfl⟩ := h.symm
            exact Or.inr ⟨⟨key, true, Or.inl rfl, Or.inr ⟨hl, rfl⟩⟩,
              fun b hb => EventType.noConfusion hb,
              fun b hb => EventType.noConfusion hb,
              fun x y hb => EventType.noConfusion hb,
              fun dx dy hb => EventType.noConfusion hb⟩
    | keyRelease key =>
      cases hl : lookupKey st key with
      | some b =>
        cases b with
        | true =>
          cases hc : choose pools.keyUp rng with
          | none => simp [dispatchEvent, hl, hc] at h
          | some sound =>
            cases playOk with
            | false => simp [dispatchEvent, hl, hc] at h
            | true =>
              simp only [dispatchEvent, hl, hc, ite_true, Except.ok.injEq,
                Prod.mk.injEq] at h
              obtain ⟨rfl, rfl⟩ := h.symm
              exact Or.inr ⟨⟨key, false, Or.inr rfl, Or.inl rfl⟩,
                fun b hb => EventType.noConfusion hb,
                fun b hb => EventType.noConfusion hb,
                fun x y hb => EventType.noConfusion hb,
                fun dx dy hb => EventType.noConfusion hb⟩
        | false =>
          simp [dispatchEvent, hl] at h
          exact Or.inl h.1.symm
      | none =>
        cases hc : choose pools.keyUp rng with
        | none => simp [dispatchEvent, hl, hc] at h
        | some sound =>
          cases playOk with
          | false => simp [dispatchEvent, hl, hc] at h
          | true =>
            simp only [dispatchEvent, hl, hc, ite_true, Except.ok.injEq,
              Prod.mk.injEq] at h
            obtain ⟨rfl, rfl⟩ := h.symm
            exact Or.inr ⟨⟨key, false, Or.inr rfl, Or.inr ⟨hl, rfl⟩⟩,
              fun b hb => EventType.noConfusion hb,
              fun b hb => EventType.noConfusion hb,
              fun x y hb => EventType.noConfusion hb,
              fun dx dy hb => EventType.noConfusion hb⟩
    | buttonPress bt =>
      cases hc : choose pools.mouseDown rng with
      | none => simp [dispatchEvent, hc] at h
      | some sound =>
        cases playOk with
        | false => simp [dispatchEvent, hc] at h
        | true =>
          simp only [dispatchEvent, hc, ite_true, Except.ok.injEq,
            Prod.mk.injEq] at h
          exact Or.inl h.1.symm
    | buttonRelease bt =>
      cases hc : choose pools.mouseUp rng with
      | none => simp [dispatchEvent, hc] at h
      | some sound =>
        cases playOk with
        | false => simp [dispatchEvent, hc] at h
        | true =>
          simp only [dispatchEvent, hc, ite_true, Except.ok.injEq,
            Prod.mk.injEq] at h
          exact Or.inl h.1.symm
    | mouseMove x y =>
      simp only [dispatchEvent, Except.ok.injEq, Prod.mk.injEq] at h
      exact Or.inl h.1.symm
    | wheel dx dy =>
      simp only [dispatchEvent, Except.ok.injEq, Prod.mk.injEq] at h
      exact Or.inl h.1.symm
  rcases hstate with rfl | ⟨⟨k0, v0, hev0, hshape⟩, hnotb⟩
  · exact ⟨fun k k' _ _ => rfl, fun b _ => rfl, fun b _ => rfl,
      fun x y _ => rfl, fun dx dy _ => rfl, fun k' hk' => hk'⟩
  · obtain ⟨hnb1, hnb2, hnb3, hnb4⟩ := hnotb
    have hother : ∀ k', k' ≠ k0 → lookupKey st' k' = lookupKey st k' := by
      intro k' hk'
      rcases hshape with rfl | ⟨hnone, rfl⟩
      · exact lookupKey_updateKey_ne st k0 k' v0 hk'
      · exact lookupKey_append_ne st k0 k' v0 hk'
    have hkeep : ∀ k', (lookupKey st k').isSome = true →
        (lookupKey st' k').isSome = true := by
      intro k' hk'
      rcases hshape with rfl | ⟨hnone, rfl⟩
      · exact lookupKey_updateKey_isSome st k0 k' v0 hk'
      · by_cases heq : k' = k0
        · subst heq
          rw [hnone] at hk'
          exact Bool.noConfusion hk'
        · rw [lookupKey_append_ne st k0 k' v0 heq]
          exact hk'
    refine ⟨?_, fun b hb => absurd hb (hnb1 b), fun b hb => absurd hb (hnb2 b),
      fun x y hb => absurd hb (hnb3 x y),
      fun dx dy hb => absurd hb (hnb4 dx dy), hkeep⟩
    intro k k' hev hk'
    have hkk : k = k0 := by
      rcases hev0 with rfl | rfl
      · rcases hev with hev | hev
        · exact (EventType.keyPress.injEq _ _).mp hev.symm
        · exact absurd hev (by intro hc; exact EventType.noConfusion hc)
      · rcases hev with hev | hev
        · exact absurd hev (by intro hc; exact EventType.noConfusion hc)
        · exact (EventType.keyRelease.injEq _ _).mp hev.symm
    subst hkk
    exact hother k' hk'

/-- C2 counterexample: singleton pools, a sink that rejects every play
request, two key-press events. The callback panics inside
`play_raw(..).unwrap()` on the very first event — the loop does not log
and continue; the second event is never dispatched and no state or
playback list survives. -/
theorem playFailure_crashesLoop_cex :
    runEvents ⟨[1], [2], [3], [4]⟩ (fun _ => 0) (fun _ => false) []
      [EventType.keyPress 0, EventType.keyPress 1] 0 =
      Except.error SoundPanic.playFailed := by
  rfl

/-- C2 (amended): whenever an event issues a play request (witnessed by
the same event playing a buffer under an accepting sink), a sink that
rejects the request makes the callback panic through
`play_raw(..).unwrap()` instead of logging the fault and continuing. -/
theorem playFailure_panics (pools : Pools) (rng : Nat)
    (st st' : List (Nat × Bool)) (ev : EventType) (p : Nat)
    (h : dispatchEvent pools rng true st ev = Except.ok (st', [p])) :
    dispatchEvent pools rng false st ev =
      Except.error SoundPanic.playFailed := by
  cases ev with
  | keyPress key =>
    cases hl : lookupKey st key with
    | some b =>
      cases b with
      | true => simp [dispatchEvent, hl] at h
      | false =>
        cases hc : choose pools.keyDown rng with
        | none => simp [dispatchEvent, hl, hc] at h
        | some sound => simp [dispatchEvent, hl, hc]
    | none =>
      cases hc : choose pools.keyDown rng with
      | none => simp [dispatchEvent, hl, hc] at h
      | some sound => simp [dispatchEvent, hl, hc]
  | keyRelease key =>
    cases hl : lookupKey st key with
    | some b =>
      cases b with
      | false => simp [dispatchEvent, hl] at h
      | true =>
        cases hc : choose pools.keyUp rng with
        | none => simp [dispatchEvent, hl, hc] at h
        | some sound => simp [dispatchEvent, hl, hc]
    | none =>
      cases hc : choose pools.keyUp rng with
      | none => simp [dispatchEvent, hl, hc] at h
      | some sound => simp [dispatchEvent, hl, hc]
  | buttonPress bt =>
    cases hc : choose pools.mouseDown rng with
    | none => simp [dispatchEvent, hc] at h
    | some sound => simp [dispatchEvent, hc]
  | buttonRelease bt =>
    cases hc : choose pools.mouseUp rng with
    | none => simp [dispatchEvent, hc] at h
    | some sound => simp [dispatchEvent, hc]
  | mouseMove x y => simp [dispatchEvent] at h
  | wheel dx dy => simp [dispatchEvent] at h

/-- C6 counterexample. First conjunct: an undecodable `.wav` directly in
the directory makes the loader panic (`Decoder::new(..).unwrap()`)
instead of returning the remaining buffers. Second conjunct: a decodable
audio file with extension `.ogg` is not returned at all — the glob
pattern is exactly `*.wav`, not every audio extension. -/
theorem loader_abort_and_wav_only_cex :
    get_buffered_sounds_from_directory [FsEntry.file "a.wav" true false] =
        Except.error LoadPanic.decodeFailed ∧
      get_buffered_sounds_from_directory [FsEntry.file "b.ogg" true true] =
        Except.ok [] := by
  exact ⟨rfl, rfl⟩

/-- C6 (amended): the loader returns exactly the files matching `*.wav`
directly inside the directory, in iteration order, provided each of them
opens and decodes; glob iteration errors are printed and skipped; files
with any other extension are never loaded. (When a matched `.wav` fails
to open or decode, the loader aborts — see the counterexample.) -/
theorem loader_loadsAllWav (listing : List FsEntry)
    (h : listing.all wavLoadable = true) :
    get_buffered_sounds_from_directory listing =
      Except.ok (wavNames listing) := by
  induction listing with
  | nil => rfl
  | cons e rest ih =>
    rw [List.all_cons, Bool.and_eq_true] at h
    obtain ⟨he, hrest⟩ := h
    have ihr := ih hrest
    simp only [get_buffered_sounds_from_directory] at ihr ⊢
    cases e with
    | globError msg =>
      simp [List.filter_cons, matchesWavGlob, loadEntries, wavNames, ihr]
    | file name opens decodes =>
      by_cases hw : strEndsWith name ".wav" = true
      · have hod : opens = true ∧ decodes = true := by
          rw [wavLoadable] at he
          rw [hw] at he
          simpa using he
        obtain ⟨rfl, rfl⟩ := hod
        simp [List.filter_cons, matchesWavGlob, hw, loadEntries, wavNames, ihr]
      · have hw' : strEndsWith name ".wav" = false :=
          Bool.not_eq_true _ ▸ Bool.of_not_eq_true hw
        simp [List.filter_cons, matchesWavGlob, hw', loadEntries, wavNames, ihr]

/-- C7: whenever any of the four sample pools is empty, `main` returns
with the error naming an empty category before `listen` is reached: the
outer error is produced for every possible event sequence, so no
hardware event is ever processed and the dispatch engine never starts
with an empty pool. -/
theorem emptyPool_abortsStartup (pools : Pools) (rngAt : Nat → Nat)
    (playOkAt : Nat → Bool) (evs : List EventType)
    (h : pools.keyDown = [] ∨ pools.keyUp = [] ∨
      pools.mouseDown = [] ∨ pools.mouseUp = []) :
    ∃ e, errorPool pools e = [] ∧
      mainRun pools rngAt playOkAt evs = Except.error e := by
  by_cases h1 : pools.keyDown = []
  · exact ⟨StartupError.noKeyDown, h1,
      by simp [mainRun, startupCheck, List.isEmpty_iff, h1]⟩
  by_cases h2 : pools.keyUp = []
  · exact ⟨StartupError.noKeyUp, h2,
      by simp [mainRun, startupCheck, List.isEmpty_iff, h1, h2]⟩
  by_cases h3 : pools.mouseDown = []
  · exact ⟨StartupError.noMouseDown, h3,
      by simp [mainRun, startupCheck, List.isEmpty_iff, h1, h2, h3]⟩
  by_cases h4 : pools.mouseUp = []
  · exact ⟨StartupError.noMouseUp, h4,
      by simp [mainRun, startupCheck, List.isEmpty_iff, h1, h2, h3, h4]⟩
  rcases h with h0 | h0 | h0 | h0
  · exact absurd h0 h1
  · exact absurd h0 h2
  · exact absurd h0 h3
  · exact absurd h0 h4

/-- A successful device search implies the config carried a device
name. -/
theorem findDevice_ok_name (devices : List String) (cfgName : Option String)
    (nm : String) (h : findDevice devices cfgName = Except.ok nm) :
    ∃ n, cfgName = some n := by
  cases devices with
  | nil => simp [findDevice] at h
  | cons d rest =>
    cases cfgName with
    | none => simp [findDevice] at h
    | some n => exact ⟨n, rfl⟩

set_option maxHeartbeats 1000000 in
/-- C8: the host string is accepted iff it lowercases to `asio` or
`wasapi`; the format string is accepted iff it lowercases to one of the
ten recognized sample formats; and explicit device resolution succeeds
only when every required field is present and its host/format strings
are recognized — a missing field or unrecognized string is fatal. -/
theorem configValidation :
    (∀ s, (∃ h, parseHost s = Except.ok h) ↔
      (lowerStr s = "asio" ∨ lowerStr s = "wasapi")) ∧
    (∀ s, (∃ f, parseFormat s = Except.ok f) ↔
      lowerStr s ∈ (["i8", "i16", "i32", "i64", "u8", "u16", "u32", "u64",
        "f32", "f64"] : List String)) ∧
    (∀ devices dc r, resolveDeviceConfig devices dc = Except.ok r →
      (∃ hs, dc.host = some hs ∧ ∃ hh, parseHost hs = Except.ok hh) ∧
      (∃ nm, dc.device_name = some nm) ∧
      dc.buffer_size.isSome = true ∧ dc.num_channels.isSome = true ∧
      dc.sample_rate.isSome = true ∧
      (∃ fs, dc.format = some fs ∧ ∃ ff, parseFormat fs = Except.ok ff)) := by
  refine ⟨?_, ?_, ?_⟩
  · intro s
    simp only [parseHost]
    split_ifs with hA hW
    · simp [hA]
    · simp [hW]
    · simp [hA, hW]
  · intro s
    simp only [parseFormat]
    split_ifs with h1 h2 h3 h4 h5 h6 h7 h8 h9 h10
    · simp [h1]
    · simp [h2]
    · simp [h3]
    · simp [h4]
    · simp [h5]
    · simp [h6]
    · simp [h7]
    · simp [h8]
    · simp [h9]
    · simp [h10]
    · simp [h1, h2, h3, h4, h5, h6, h7, h8, h9, h10]
  · intro devices dc r h
    cases hhost : dc.host with
    | none => simp [resolveDeviceConfig, hhost] at h
    | some hs =>
      simp only [resolveDeviceConfig, hhost] at h
      cases hph : parseHost hs with
      | error e => simp [hph] at h
      | ok hostv =>
        simp only [hph] at h
        cases hfd : findDevice devices dc.device_name with
        | error e => simp [hfd] at h
        | ok nm =>
          simp only [hfd] at h
          cases hbs : dc.buffer_size with
          | none => simp [hbs] at h
          | some bs =>
            simp only [hbs] at h
            cases hch : dc.num_channels with
            | none => simp [hch] at h
            | some ch =>
              simp only [hch] at h
              cases hsr : dc.sample_rate with
              | none => simp [hsr] at h
              | some sr =>
                simp only [hsr] at h
                cases hfs : dc.format with
                | none => simp [hfs] at h
                | some fs =>
                  simp only [hfs] at h
                  cases hpf : parseFormat fs with
                  | error e => simp [hpf] at h
                  | ok fmt =>
                    exact ⟨⟨hs, rfl, hostv, hph⟩,
                      findDevice_ok_name devices dc.device_name nm hfd,
                      by simp, by simp, by simp,
                      fs, rfl, fmt, hpf⟩

/-! ### Concrete witnesses -/

/-- Witness for C1: three presses of key 7 from the empty state play the
single key-down buffer exactly once. -/
theorem repeatedPress_playsOnce_witness :
    ∃ p st1,
      dispatchEvent ⟨[10], [20], [30], [40]⟩ 0 true []
          (EventType.keyPress 7) = Except.ok (st1, [p]) ∧
      lookupKey st1 7 = some true ∧
      runEvents ⟨[10], [20], [30], [40]⟩ (fun _ => 0) (fun _ => true) []
        (List.replicate 3 (EventType.keyPress 7)) 0 = Except.ok (st1, [p]) :=
  repeatedPress_playsOnce ⟨[10], [20], [30], [40]⟩ (fun _ => 0)
    (fun _ => true) [] 7 3 (by decide) (by decide) (fun _ => rfl) (by decide)

/-- Witness for the amended C2: key 3 plays under an accepting sink, so
under a rejecting sink the callback panics. -/
theorem playFailure_panics_witness :
    dispatchEvent ⟨[10], [20], [30], [40]⟩ 0 false [] (EventType.keyPress 3) =
      Except.error SoundPanic.playFailed :=
  playFailure_panics ⟨[10], [20], [30], [40]⟩ 0 [] [(3, true)]
    (EventType.keyPress 3) 10 rfl

/-- Witness for C3: releasing never-seen key 4 plays a key-up buffer and
records `false`. -/
theorem releaseUnknownKey_witness :
    ∃ p, dispatchEvent ⟨[10], [20], [30], [40]⟩ 1 true [(9, true)]
        (EventType.keyRelease 4) =
        Except.ok ([(9, true)] ++ [(4, false)], [p]) ∧
      lookupKey ([(9, true)] ++ [(4, false)]) 4 = some false :=
  releaseUnknownKey_playsKeyUp ⟨[10], [20], [30], [40]⟩ 1 [(9, true)] 4
    (by decide) (by decide)

/-- Witness for C4: button 0 plays on press and on release with the
state unchanged. -/
theorem buttonEvents_alwaysPlay_witness :
    (∃ p, dispatchEvent ⟨[10], [20], [30], [40]⟩ 2 true [(1, false)]
        (EventType.buttonPress 0) = Except.ok ([(1, false)], [p])) ∧
    (∃ q, dispatchEvent ⟨[10], [20], [30], [40]⟩ 2 true [(1, false)]
        (EventType.buttonRelease 0) = Except.ok ([(1, false)], [q])) :=
  buttonEvents_alwaysPlay ⟨[10], [20], [30], [40]⟩ 2 [(1, false)] 0
    (by decide) (by decide)

/-- Witness for C5: a first press of key 5 plays one buffer and performs
exactly one insertion. -/
theorem dispatch_atMostOneEffect_witness :
    ([10] : List Nat).length ≤ 1 ∧
    (([(5, true)] : List (Nat × Bool)) = [] ∨
      (∃ k v, ([(5, true)] : List (Nat × Bool)) = updateKey [] k v) ∨
      (∃ k v, ([(5, true)] : List (Nat × Bool)) = [] ++ [(k, v)])) :=
  ⟨(dispatch_atMostOneEffect ⟨[10], [20], [30], [40]⟩ 0 true []
      (EventType.keyPress 5) [(5, true)] [10] rfl).1,
    (dispatch_atMostOneEffect ⟨[10], [20], [30], [40]⟩ 0 true []
      (EventType.keyPress 5) [(5, true)] [10] rfl).2.1⟩

/-- Witness for the amended C6: a listing with a decodable `.wav`, a
glob error and a decodable `.ogg` loads exactly the `.wav` file. -/
theorem loader_loadsAllWav_witness :
    get_buffered_sounds_from_directory
        [FsEntry.file "a.wav" true true, FsEntry.globError "glob fail",
          FsEntry.file "b.ogg" true true] =
      Except.ok (wavNames [FsEntry.file "a.wav" true true,
        FsEntry.globError "glob fail", FsEntry.file "b.ogg" true true]) :=
  loader_loadsAllWav
    [FsEntry.file "a.wav" true true, FsEntry.globError "glob fail",
      FsEntry.file "b.ogg" true true] (by decide)

/-- Witness for C7: with an empty keydown pool, startup aborts naming an
empty category and the event is never dispatched. -/
theorem emptyPool_abortsStartup_witness :
    ∃ e, errorPool ⟨[], [20], [30], [40]⟩ e = [] ∧
      mainRun ⟨[], [20], [30], [40]⟩ (fun _ => 0) (fun _ => true)
        [EventType.keyPress 1] = Except.error e :=
  emptyPool_abortsStartup ⟨[], [20], [30], [40]⟩ (fun _ => 0) (fun _ => true)
    [EventType.keyPress 1] (Or.inl rfl)

/-- Witness for C8: `"ASIO"` is an accepted host string and `"F32"` an
accepted format string. -/
theorem configValidation_witness :
    (∃ h, parseHost "ASIO" = Except.ok h) ∧
    (∃ f, parseFormat "F32" = Except.ok f) :=
  ⟨(configValidation.1 "ASIO").mpr (Or.inl (by decide)),
    (configValidation.2.1 "F32").mpr (by decide)⟩

/-- Witness for C9: with the four singleton pools, a button press at
seed 5 does not hit the draw-failure branch. -/
theorem chooseNeverFails_witness :
    dispatchEvent ⟨[10], [20], [30], [40]⟩ 5 true []
        (EventType.buttonPress 2) ≠
      Except.error SoundPanic.chooseFailed :=
  chooseNeverFails ⟨[10], [20], [30], [40]⟩ (by decide) (by decide)
    (by decide) (by decide) 5 true [] (EventType.buttonPress 2)

/-- Witness for C10: a first press of key 5 leaves the entry of key 1
unchanged. -/
theorem dispatch_framePreservation_witness :
    lookupKey [(5, true)] 1 = lookupKey [] 1 :=
  (dispatch_framePreservation ⟨[10], [20], [30], [40]⟩ 0 true []
    (EventType.keyPress 5) [(5, true)] [10] rfl).1 5 1 (Or.inl rfl)
    (by decide)
